import Mathlib

/-!
Verification of the Aether request-dispatch core against its specification.

The Python sources under `src/` are shallowly embedded as executable Lean
definitions.  Machine floats are modelled as rationals, wall-clock instants as
rational second counts, and Python `None` as `Option.none`.  Modules that are
referenced by the sources but absent from the tree (the `RPMDefaults`
constants, the `RateLimitType` enumeration, the `APIFormat` enumeration, the
`can_passthrough_endpoint` helper and the candidate sorter) are modelled from
the specification and marked as such in their doc comments.
-/

set_option linter.unusedVariables false

namespace Aether

/-- Python `int(x)` on a float: truncation toward zero. -/
def pyInt (q : ℚ) : Int := if 0 ≤ q then ⌊q⌋ else ⌈q⌉

/-- Python `round` to the nearest integer, ties to even (banker's rounding). -/
def round_half_even (q : ℚ) : Int :=
  if q - ⌊q⌋ = 1/2 then (if ⌊q⌋ % 2 = 0 then ⌊q⌋ else ⌊q⌋ + 1) else ⌊q + 1/2⌋

/-- Python `round(x, 3)`. -/
def round3 (q : ℚ) : ℚ := (round_half_even (q * 1000) : ℚ) / 1000

/-- Python `statistics.median`: middle of the sorted list, mean of the two
middle elements when the length is even. -/
def median (l : List ℚ) : ℚ :=
  let s := List.insertionSort (fun a b => a ≤ b) l
  let n := s.length
  if n = 0 then 0
  else if n % 2 = 1 then s.getD (n / 2) 0
  else (s.getD (n / 2 - 1) 0 + s.getD (n / 2) 0) / 2

/-- Python `str.upper()` on the ASCII strings used as signatures and format
keys (character-wise uppercasing). -/
def pyUpper (s : String) : String := ⟨s.data.map Char.toUpper⟩

/-- Python truthiness of an optional integer (`if x:`): present and nonzero. -/
def intTruthy : Option Int → Bool
  | some v => v != 0
  | none => false

namespace RPMDefaults

/-! Constants from `src/config/constants.py` (`RPMDefaults`), a module that is
not part of the tree.  Modelled from the spec: §6 lists
`MIN_CONSISTENT_OBSERVATIONS=3`, `MIN_HEADER_CONFIRMATIONS=2`,
`OBSERVATION_CONSISTENCY_THRESHOLD=0.2`, `HEADER_LIMIT_SAFETY_MARGIN=0.95`,
`OBSERVATION_LIMIT_SAFETY_MARGIN=0.85`, `ENFORCEMENT_CONFIDENCE_THRESHOLD=0.5`,
`CONFIDENCE_DECAY_PER_MINUTE` (e.g. 0.01), `UTILIZATION_WINDOW_SIZE=15`,
`UTILIZATION_WINDOW_SECONDS=300`, `UTILIZATION_THRESHOLD=0.7`,
`HIGH_UTILIZATION_RATIO=0.6`, `MIN_SAMPLES_FOR_DECISION=5`,
`PROBE_INCREASE_INTERVAL_MINUTES=30`.  The remaining numeric values are not
given by the spec; representative positive values are chosen for them. -/

def INITIAL_LIMIT : Int := 10
def MIN_RPM_LIMIT : Int := 1
def MAX_RPM_LIMIT : Int := 1000
def INCREASE_STEP : Int := 5
def UTILIZATION_WINDOW_SIZE : Nat := 15
def UTILIZATION_WINDOW_SECONDS : ℚ := 300
def UTILIZATION_THRESHOLD : ℚ := 7/10
def HIGH_UTIL_FRACTION : ℚ := 3/5
def MIN_SAMPLES_FOR_DECISION : Nat := 5
def PROBE_INCREASE_INTERVAL_MINUTES : ℚ := 30
def PROBE_INCREASE_MIN_REQUESTS : Nat := 5
def MIN_CONSISTENT_OBSERVATIONS : Nat := 3
def MIN_HEADER_CONFIRMATIONS : Nat := 2
def OBSERVATION_CONSISTENCY_THRESHOLD : ℚ := 1/5
def HEADER_LIMIT_SAFETY_MARGIN : ℚ := 19/20
def OBSERVATION_LIMIT_SAFETY_MARGIN : ℚ := 17/20
def ENFORCEMENT_CONFIDENCE_THRESHOLD : ℚ := 1/2
def CONFIDENCE_DECAY_PER_MINUTE : ℚ := 1/100
def COOLDOWN_AFTER_429_MINUTES : ℚ := 5
def MAX_HISTORY_RECORDS : Nat := 20

end RPMDefaults

/-- Modelled from the spec: `RateLimitType` from
`src/services/rate_limit/detector.py` (absent from the tree).  The manager
branches on `RPM`, `CONCURRENT`, and everything else ("unknown"). -/
inductive RateLimitType where
  | rpm
  | concurrent
  | unknown
deriving DecidableEq, Repr

/-- Modelled from the spec: `RateLimitInfo` from the detector module;
`limit_value` is the integer extracted from the upstream rate-limit header. -/
structure RateLimitInfo where
  limit_type : RateLimitType
  limit_value : Option Int
deriving DecidableEq, Repr

/-- One entry of `ProviderAPIKey.adjustment_history`: either a 429 observation
(`type = "429_observation"`) or an adjustment record written by
`_record_adjustment` (no `type` key; `confidence` present only when it was
passed as extra data).  Timestamps are rational UTC second counts; the ISO
strings of the source sort in timestamp order. -/
inductive HistEntry where
  | obs (timestamp : ℚ) (current_rpm : Option Int) (upstream_limit : Option Int)
  | adj (timestamp : ℚ) (old_limit new_limit : Int) (reason : String)
      (confidence : Option ℚ)
deriving DecidableEq, Repr

namespace HistEntry

def isObs : HistEntry → Bool
  | .obs _ _ _ => true
  | .adj _ _ _ _ _ => false

def timestamp : HistEntry → ℚ
  | .obs t _ _ => t
  | .adj t _ _ _ _ => t

end HistEntry

/-- One utilization sample `{ts, util}`. -/
structure Sample where
  ts : ℚ
  util : ℚ
deriving DecidableEq, Repr

/-- The adaptive-RPM state carried by a `ProviderAPIKey` row, per the data
model of the spec (the ORM module `src/models/database.py` is not in the
tree; field names follow the spec and the uses in `adaptive_rpm.py`). -/
structure ProviderAPIKey where
  rpm_limit : Option Int
  learned_rpm_limit : Option Int
  last_rpm_peak : Option Int
  last_429_at : Option ℚ
  last_429_type : Option RateLimitType
  rpm_429_count : Int
  concurrent_429_count : Int
  adjustment_history : List HistEntry
  utilization_samples : List Sample
  last_probe_increase_at : Option ℚ
deriving DecidableEq, Repr

namespace AdaptiveRPM

open RPMDefaults

/-- `AdaptiveRPMManager._trim_history`: keep at most 20 entries, dropping the
oldest adjustment records first and observations only as a last resort. -/
def trim_history (history : List HistEntry) : List HistEntry :=
  if history.length ≤ MAX_HISTORY_RECORDS then history
  else
    let tsLE : HistEntry → HistEntry → Prop := fun a b => a.timestamp ≤ b.timestamp
    let observations :=
      List.insertionSort tsLE (history.filter (fun h => h.isObs))
    let adjustments :=
      List.insertionSort tsLE (history.filter (fun h => !h.isObs))
    let overflow := history.length - MAX_HISTORY_RECORDS
    let trim_adj := min overflow adjustments.length
    let adjustments := adjustments.drop trim_adj
    let overflow := overflow - trim_adj
    let observations := if overflow > 0 then observations.drop overflow else observations
    List.insertionSort tsLE (observations ++ adjustments)

/-- `AdaptiveRPMManager._record_429_observation`. -/
def record_429_observation (k : ProviderAPIKey) (now : ℚ)
    (current_rpm upstream_limit : Option Int) : ProviderAPIKey :=
  { k with adjustment_history :=
      trim_history (k.adjustment_history ++ [.obs now current_rpm upstream_limit]) }

/-- `AdaptiveRPMManager._record_adjustment` (only the fields the algorithm
reads back are modelled; the free-form extra data is dropped except for
`confidence`, whose presence matters to `_get_base_confidence`). -/
def record_adjustment (k : ProviderAPIKey) (now : ℚ)
    (old_limit new_limit : Int) (reason : String) (confidence : Option ℚ) :
    ProviderAPIKey :=
  { k with adjustment_history :=
      trim_history (k.adjustment_history ++ [.adj now old_limit new_limit reason confidence]) }

/-- `AdaptiveRPMManager._check_consistency`: every value is within
`OBSERVATION_CONSISTENCY_THRESHOLD` relative deviation of the median. -/
def check_consistency (values : List ℚ) : Bool :=
  if values.isEmpty then false
  else
    let med := median values
    if med ≤ 0 then false
    else values.all (fun v => |v - med| / med ≤ OBSERVATION_CONSISTENCY_THRESHOLD)

/-- Clamp a candidate limit to `[MIN_RPM_LIMIT, MAX_RPM_LIMIT]` as the two
`max`/`min` lines of `_evaluate_observations` do. -/
def clampLimit (v : Int) : Int := min (max v MIN_RPM_LIMIT) MAX_RPM_LIMIT

/-- `AdaptiveRPMManager._evaluate_observations`: header-bearing observations
first (2 needed, base confidence 0.8), then purely local ones (3 needed, base
confidence 0.6); otherwise no update, confidence 0. -/
def evaluate_observations (k : ProviderAPIKey) : Option Int × ℚ :=
  let observations := k.adjustment_history.filter (fun h => h.isObs)
  if observations.isEmpty then (none, 0)
  else
    let header_obs := observations.filter (fun o =>
      match o with
      | .obs _ _ (some u) => u > 0
      | _ => false)
    let headerLimit : Option Int :=
      if header_obs.length ≥ MIN_HEADER_CONFIRMATIONS then
        let recent := header_obs.drop (header_obs.length - MIN_HEADER_CONFIRMATIONS * 2)
        let values := recent.map (fun o =>
          match o with
          | .obs _ _ (some u) => (u : ℚ)
          | _ => 0)
        let last_n := values.drop (values.length - MIN_HEADER_CONFIRMATIONS)
        if check_consistency last_n then
          some (clampLimit (pyInt (median last_n * HEADER_LIMIT_SAFETY_MARGIN)))
        else none
      else none
    match headerLimit with
    | some l => (some l, 4/5)
    | none =>
      let local_obs := observations.filter (fun o =>
        match o with
        | .obs _ (some c) _ => c > 0
        | _ => false)
      let localLimit : Option Int :=
        if local_obs.length ≥ MIN_CONSISTENT_OBSERVATIONS then
          let recent := local_obs.drop (local_obs.length - MIN_CONSISTENT_OBSERVATIONS * 2)
          let values := recent.map (fun o =>
            match o with
            | .obs _ (some c) _ => (c : ℚ)
            | _ => 0)
          let last_n := values.drop (values.length - MIN_CONSISTENT_OBSERVATIONS)
          if check_consistency last_n then
            some (clampLimit (pyInt (median last_n * OBSERVATION_LIMIT_SAFETY_MARGIN)))
          else none
        else none
      match localLimit with
      | some l => (some l, 3/5)
      | none => (none, 0)

/-- `AdaptiveRPMManager._get_base_confidence`: the `confidence` of the newest
adjustment record, else a re-evaluation of the observations, else a 0.3
baseline when a learned limit exists, else 0. -/
def get_base_confidence (k : ProviderAPIKey) : ℚ :=
  let fromHistory := k.adjustment_history.reverse.findSome? (fun e =>
    match e with
    | .adj _ _ _ _ (some c) => some c
    | _ => none)
  match fromHistory with
  | some c => c
  | none =>
    let eval := evaluate_observations k
    if eval.2 > 0 then eval.2
    else if k.learned_rpm_limit.isSome then 3/10
    else 0

/-- `AdaptiveRPMManager.get_confidence`: base confidence decayed by
`CONFIDENCE_DECAY_PER_MINUTE` per minute since the last 429, clamped to
`[0, 1]`; 0 when no limit has been learned or the base is non-positive.
`now` is the wall-clock instant of the call, in seconds. -/
def get_confidence (k : ProviderAPIKey) (now : ℚ) : ℚ :=
  match k.learned_rpm_limit with
  | none => 0
  | some _ =>
    let base := get_base_confidence k
    if base ≤ 0 then 0
    else
      let time_decay : ℚ :=
        match k.last_429_at with
        | some t => max 0 ((now - t) / 60) * CONFIDENCE_DECAY_PER_MINUTE
        | none => 1
      min (max 0 (base - time_decay)) 1

/-- `AdaptiveRPMManager.is_enforcement_active`. -/
def is_enforcement_active (k : ProviderAPIKey) (now : ℚ) : Bool :=
  get_confidence k now ≥ ENFORCEMENT_CONFIDENCE_THRESHOLD

/-- `AdaptiveRPMManager.get_effective_limit`: the fixed `rpm_limit` when set,
else the learned limit while enforcement is active, else none. -/
def get_effective_limit (k : ProviderAPIKey) (now : ℚ) : Option Int :=
  match k.rpm_limit with
  | some v => some v
  | none =>
    match k.learned_rpm_limit with
    | some v => if is_enforcement_active k now then some v else none
    | none => none

/-- `AdaptiveRPMManager.handle_429_error`.  Pure state transformer: returns the
updated key together with the function's return value.  `now` stands for every
`datetime.now(timezone.utc)` taken during the call. -/
def handle_429_error (k : ProviderAPIKey) (info : RateLimitInfo)
    (current_rpm : Option Int) (now : ℚ) : ProviderAPIKey × Option Int :=
  match k.rpm_limit with
  | some v => (k, some v)
  | none =>
    let k := { k with
      last_429_at := some now
      last_429_type := some info.limit_type
      utilization_samples := [] }
    let k :=
      match info.limit_type with
      | .rpm =>
        let k := { k with rpm_429_count := k.rpm_429_count + 1 }
        let upstream_limit := info.limit_value
        let k := record_429_observation k now current_rpm upstream_limit
        let eval := evaluate_observations k
        let evaluated_limit := eval.1
        let confidence := eval.2
        let old_limit := k.learned_rpm_limit
        match evaluated_limit with
        | some l =>
          if confidence ≥ ENFORCEMENT_CONFIDENCE_THRESHOLD then
            let k := record_adjustment k now (old_limit.getD 0) l "rpm_429"
              (some (round3 confidence))
            let k := { k with learned_rpm_limit := some l }
            let k :=
              match upstream_limit with
              | some u =>
                if u ≠ 0 ∧ u > 0 then { k with last_rpm_peak := some u }
                else
                  match current_rpm with
                  | some c => if c ≠ 0 ∧ c > 0 then { k with last_rpm_peak := some c } else k
                  | none => k
              | none =>
                match current_rpm with
                | some c => if c ≠ 0 ∧ c > 0 then { k with last_rpm_peak := some c } else k
                | none => k
            k
          else k
        | none => k
      | .concurrent =>
        { k with concurrent_429_count := k.concurrent_429_count + 1 }
      | .unknown =>
        match k.learned_rpm_limit with
        | some old_limit =>
          let new_limit := max (pyInt ((old_limit : ℚ) * (19/20))) MIN_RPM_LIMIT
          let k := record_adjustment k now old_limit new_limit "unknown_429" none
          { k with learned_rpm_limit := some new_limit }
        | none => k
    (k, k.learned_rpm_limit)

/-- `AdaptiveRPMManager._update_utilization_window`: append the sample, drop
entries older than the window, cap the window size. -/
def update_utilization_window (samples : List Sample) (now_ts utilization : ℚ) :
    List Sample :=
  let samples := samples ++ [⟨now_ts, round3 utilization⟩]
  let cutoff_ts := now_ts - UTILIZATION_WINDOW_SECONDS
  let samples := samples.filter (fun s => s.ts > cutoff_ts)
  if samples.length > UTILIZATION_WINDOW_SIZE then
    samples.drop (samples.length - UTILIZATION_WINDOW_SIZE)
  else samples

/-- `AdaptiveRPMManager._is_in_cooldown`. -/
def is_in_cooldown (k : ProviderAPIKey) (now : ℚ) : Bool :=
  match k.last_429_at with
  | none => false
  | some t => now - t < COOLDOWN_AFTER_429_MINUTES * 60

/-- `AdaptiveRPMManager._should_probe_increase`. -/
def should_probe_increase (k : ProviderAPIKey) (samples : List Sample) (now : ℚ) :
    Bool :=
  let probe_interval_seconds := PROBE_INCREASE_INTERVAL_MINUTES * 60
  let blocked_by_429 : Bool :=
    match k.last_429_at with
    | some t => decide (now - t < probe_interval_seconds)
    | none => false
  if blocked_by_429 then false
  else
    let blocked_by_probe : Bool :=
      match k.last_probe_increase_at with
      | some t => decide (now - t < probe_interval_seconds)
      | none => false
    if blocked_by_probe then false
    else if samples.length < PROBE_INCREASE_MIN_REQUESTS then false
    else
      let avg_util := (samples.map (fun s => s.util)).sum / samples.length
      decide (avg_util ≥ 3/10)

/-- `AdaptiveRPMManager._check_increase_conditions`: returns the increase
reason (`"high_utilization"` or `"probe_increase"`) or none. -/
def check_increase_conditions (k : ProviderAPIKey) (samples : List Sample)
    (now : ℚ) (known_boundary : Option Int) : Option String :=
  if is_in_cooldown k now then none
  else
    let current_limit : Int :=
      match k.learned_rpm_limit with
      | some v => if v = 0 then INITIAL_LIMIT else v
      | none => INITIAL_LIMIT
    let high_util :=
      if samples.length ≥ MIN_SAMPLES_FOR_DECISION then
        let high_util_count := (samples.filter (fun s => s.util ≥ UTILIZATION_THRESHOLD)).length
        let high_util_fraction := (high_util_count : ℚ) / samples.length
        if high_util_fraction ≥ HIGH_UTIL_FRACTION then
          if intTruthy known_boundary then
            decide (current_limit < known_boundary.getD 0)
          else true
        else false
      else false
    if high_util then some "high_utilization"
    else if should_probe_increase k samples now then some "probe_increase"
    else none

/-- `AdaptiveRPMManager._increase_limit`: `+1` for probes, `+INCREASE_STEP`
capped at the known boundary otherwise, always capped at `MAX_RPM_LIMIT`. -/
def increase_limit (current_limit : Int) (known_boundary : Option Int)
    (is_probe : Bool) : Int :=
  let new_limit :=
    if is_probe then current_limit + 1
    else
      let n := current_limit + INCREASE_STEP
      if intTruthy known_boundary ∧ n > known_boundary.getD 0 then known_boundary.getD 0
      else n
  let new_limit := min new_limit MAX_RPM_LIMIT
  if new_limit ≤ current_limit then current_limit else new_limit

/-- `AdaptiveRPMManager.handle_success`: additive increase driven by the
utilization window, gated on adaptive mode, an existing learned limit and
sufficient confidence.  Returns the updated key and the function's return
value. -/
def handle_success (k : ProviderAPIKey) (current_rpm : Int) (now : ℚ) :
    ProviderAPIKey × Option Int :=
  if k.rpm_limit.isSome then (k, none)
  else
    match k.learned_rpm_limit with
    | none => (k, none)
    | some learned =>
      let confidence := get_confidence k now
      if confidence < ENFORCEMENT_CONFIDENCE_THRESHOLD then (k, none)
      else
        let current_limit : Int := learned
        let known_boundary := k.last_rpm_peak
        let utilization : ℚ :=
          if current_limit > 0 then (current_rpm : ℚ) / current_limit else 0
        let samples := update_utilization_window k.utilization_samples now utilization
        let k := { k with utilization_samples := samples }
        let increase_reason := check_increase_conditions k samples now known_boundary
        match increase_reason with
        | some reason =>
          if current_limit < MAX_RPM_LIMIT then
            let old_limit := current_limit
            let is_probe := reason = "probe_increase"
            let new_limit := increase_limit current_limit known_boundary is_probe
            if new_limit ≤ old_limit then (k, none)
            else
              let k := record_adjustment k now old_limit new_limit reason
                (some (round3 confidence))
              let k := { k with learned_rpm_limit := some new_limit }
              let k := if is_probe then { k with last_probe_increase_at := some now } else k
              let k := { k with utilization_samples := [] }
              (k, some new_limit)
          else (k, none)
        | none => (k, none)

end AdaptiveRPM

namespace ConcurrencyChecker

open AdaptiveRPM

/-- The new-caller quota of `ConcurrencyChecker.check_available`:
`max(1, math.floor(effective_key_limit * (1 - reservation_ratio)))`. -/
def available_for_new (effective_key_limit : Int) (reservation : ℚ) : Int :=
  max 1 ⌊(effective_key_limit : ℚ) * (1 - reservation)⌋

/-- `ConcurrencyChecker.check_available` (the admission verdict `can_use`,
with a concurrency manager present).  `key_count` is the key's current RPM
counter and `reservation` the ratio computed by the reservation manager,
which is an external collaborator here. -/
def check_available (k : ProviderAPIKey) (now : ℚ) (key_count : Int)
    (reservation : ℚ) (is_cached_user : Bool) : Bool :=
  let effective_key_limit := get_effective_limit k now
  match effective_key_limit with
  | none => true
  | some limit =>
    if is_cached_user then
      if key_count ≥ limit then false else true
    else
      if key_count ≥ available_for_new limit reservation then false else true

end ConcurrencyChecker

namespace Compatibility

/-- The endpoint's `format_acceptance_config` dictionary.  Field values mirror
the `config.get` defaults of the source: `enabled` false, the format lists
empty, `stream_conversion` true. -/
structure AcceptanceConfig where
  enabled : Bool := false
  reject_formats : List String := []
  accept_formats : List String := []
  stream_conversion : Bool := true
deriving DecidableEq, Repr

/-- The distinct incompatibility reasons returned by `is_format_compatible`
(the source returns human-readable strings; only their identity matters). -/
inductive SkipReason where
  | endpointNotConfigured
  | endpointDisabled
  | rejected
  | notAccepted
  | noStreamConversion
  | noConverter
deriving DecidableEq, Repr

/-- The tail of `is_format_compatible` once the endpoint check has passed or
been skipped: consult the converter registry. -/
def converter_check (can_convert_full : String → String → Bool → Bool)
    (client_key provider_key : String) (is_stream : Bool) :
    Bool × Bool × Option SkipReason :=
  if !(can_convert_full client_key provider_key is_stream) then
    (false, false, some .noConverter)
  else (true, true, none)

/-- `is_format_compatible` from
`src/core/api_format/conversion/compatibility.py`.

`data_format_id` is modelled from the spec: the source delegates passthrough
detection to `can_passthrough_endpoint` in `src/core/api_format/metadata.py`,
a module absent from the tree; per spec §4.1 it is true iff both signatures
share the same `data_format_id`, so that function is passed in here.
`can_convert_full` is the converter registry's capability query, an external
collaborator. -/
def is_format_compatible (data_format_id : String → String)
    (can_convert_full : String → String → Bool → Bool)
    (client_format endpoint_api_format : String)
    (endpoint_format_acceptance_config : Option AcceptanceConfig)
    (is_stream : Bool) (effective_conversion_enabled : Bool)
    (skip_endpoint_check : Bool) : Bool × Bool × Option SkipReason :=
  let client_key := pyUpper client_format
  let provider_key := pyUpper endpoint_api_format
  if provider_key = client_key then (true, false, none)
  else if data_format_id client_key = data_format_id provider_key then
    (true, false, none)
  else if !skip_endpoint_check then
    match endpoint_format_acceptance_config with
    | none => (false, false, some .endpointNotConfigured)
    | some config =>
      if !config.enabled then (false, false, some .endpointDisabled)
      else if (config.reject_formats.map pyUpper).contains client_key then
        (false, false, some .rejected)
      else if !config.accept_formats.isEmpty ∧
          !(config.accept_formats.map pyUpper).contains client_key then
        (false, false, some .notAccepted)
      else if is_stream ∧ !config.stream_conversion then
        (false, false, some .noStreamConversion)
      else converter_check can_convert_full client_key provider_key is_stream
  else converter_check can_convert_full client_key provider_key is_stream

end Compatibility

namespace Orchestrator

/-- `AsyncTaskOrchestrator._should_stop_on_http_error`: 401/403/429 never
stop; any other 4xx stops exactly when the error classifier
(`ErrorClassifier.is_client_error`, an external collaborator here) judges the
body to be a client request error. -/
def should_stop_on_http_error (is_client_error : String → Bool)
    (status_code : Int) (error_text : String) : Bool :=
  if status_code = 401 ∨ status_code = 403 ∨ status_code = 429 then false
  else if 400 ≤ status_code ∧ status_code < 500 then is_client_error error_text
  else false

/-- Terminal record status given to the candidate's audit row. -/
inductive RecordStatus where
  | failed
  | success
deriving DecidableEq, Repr

/-- What `submit_with_failover` does after an attempt's HTTP response. -/
inductive FailoverAction where
  | raiseClientError
  | nextCandidate
  | proceed
deriving DecidableEq, Repr

/-- The upstream-error handling step of `submit_with_failover` for one
candidate: a status `>= 400` marks the record `failed` and then either raises
`UpstreamClientRequestError` (when `_should_stop_on_http_error` says so) or
continues with the next candidate; a non-error status proceeds to task-id
extraction. -/
def http_error_step (is_client_error : String → Bool)
    (status_code : Int) (error_text : String) :
    Option RecordStatus × FailoverAction :=
  if status_code ≥ 400 then
    (some .failed,
      if should_stop_on_http_error is_client_error status_code error_text then
        .raiseClientError
      else .nextCandidate)
  else (none, .proceed)

end Orchestrator

namespace Sorter

/-- One candidate as seen by the sorter.  `global_priority` is the value of
`key.global_priority_by_format` already resolved for the request's client
format. -/
structure SorterCandidate where
  key_id : String
  provider_priority : Int
  internal_priority : Int
  global_priority : Int
  needs_conversion : Bool
  provider_keep_priority_on_conversion : Bool
deriving DecidableEq, Repr

/-- `SchedulingConfig.priority_mode`. -/
inductive PriorityMode where
  | provider
  | global_key
deriving DecidableEq, Repr

/-- Conversion-demotion group: 1 (demoted) iff the global
`keep_priority_on_conversion` flag is off, the candidate needs conversion,
and its Provider does not override with `keep_priority_on_conversion=true`. -/
def demote_group (global_keep : Bool) (c : SorterCandidate) : Nat :=
  if !global_keep && c.needs_conversion && !c.provider_keep_priority_on_conversion
  then 1 else 0

/-- Priority component of the sort key: `(global_priority, internal_priority)`
in `global_key` mode, `(provider_priority, internal_priority)` in `provider`
mode, compared lexicographically ascending (lower value first, the order the
unit tests assert). -/
def priority_pair (mode : PriorityMode) (c : SorterCandidate) : Lex (Int × Int) :=
  toLex (match mode with
    | .provider => (c.provider_priority, c.internal_priority)
    | .global_key => (c.global_priority, c.internal_priority))

/-- Full sort key: demotion group first, then the priority pair. -/
def sort_key (mode : PriorityMode) (global_keep : Bool) (c : SorterCandidate) :
    Lex (Nat × Lex (Int × Int)) :=
  toLex (demote_group global_keep c, priority_pair mode c)

/-- Modelled from the spec: `CandidateSorter._apply_priority_mode_sort` from
`src/services/scheduling/candidate_sorter.py`, a module absent from the tree
(only its unit tests are present).  Per spec §4.5 a stable sort by priority,
with conversion-requiring candidates demoted into a strictly lower group
unless the global or the per-Provider `keep_priority_on_conversion` flag is
set; the direction of the priority comparison follows the unit tests. -/
def apply_priority_mode_sort (mode : PriorityMode) (global_keep : Bool)
    (candidates : List SorterCandidate) : List SorterCandidate :=
  List.insertionSort
    (fun a b => sort_key mode global_keep a ≤ sort_key mode global_keep b)
    candidates

end Sorter

namespace ModelPermissions

/-- The two shapes of a non-null `allowed_models` value: a flat list, or a map
`{signature → list}`.  A map is modelled as an association list with the
unique keys of a Python dict. -/
inductive AllowedModelsVal where
  | list (l : List String)
  | dict (m : List (String × List String))
deriving DecidableEq, Repr

/-- `AllowedModels`: `None` means unrestricted. -/
abbrev AllowedModels := Option AllowedModelsVal

/-- `normalize_allowed_models` from `src/core/model_permissions.py`. -/
def normalize_allowed_models (allowed_models : AllowedModels)
    (api_format : Option String) : Option (Finset String) :=
  match allowed_models with
  | none => none
  | some (.list l) => some l.toFinset
  | some (.dict m) =>
    match api_format with
    | none =>
      let all_models := m.foldl (fun s p => s ∪ p.2.toFinset) ∅
      if all_models = (∅ : Finset String) then none else some all_models
    | some fmt =>
      let api_format_upper := pyUpper fmt
      let models :=
        match m.lookup api_format_upper with
        | some v => some v
        | none => m.lookup "*"
      match models with
      | none => none
      | some v => some v.toFinset

/-- The inner `merge_sets` of `merge_allowed_models`: `None` is unrestricted,
otherwise set intersection. -/
def merge_sets (a b : Option (Finset String)) : Option (Finset String) :=
  match a, b with
  | none, b => b
  | some a, none => some a
  | some a, some b => some (a ∩ b)

/-- Python's `sorted` on a set of strings. -/
def sortedList (s : Finset String) : List String :=
  s.sort (fun a b => a ≤ b)

/-- The per-format half of `merge_allowed_models`: the intersection for one
format. -/
def per_format_merge (v1 v2 : AllowedModelsVal) (fmt : String) :
    Option (Finset String) :=
  merge_sets (normalize_allowed_models (some v1) (some fmt))
    (normalize_allowed_models (some v2) (some fmt))

/-- The map-producing branch of `merge_allowed_models` (taken whenever either
side is a dict): per known format the intersection of the two sides, with a
`"*"` default entry when every format is restricted. -/
def merge_dict_branch (known_formats : List String)
    (v1 v2 : AllowedModelsVal) : AllowedModels :=
  let per_format := per_format_merge v1 v2
  let default_set := per_format_merge v1 v2 "__DEFAULT__"
  let can_use_wildcard :=
    default_set.isSome && known_formats.all (fun fmt => (per_format fmt).isSome)
  let merged_dict : List (String × List String) :=
    if can_use_wildcard then
      match default_set with
      | some d =>
        ("*", sortedList d) ::
          known_formats.filterMap (fun fmt =>
            match per_format fmt with
            | some s => if s ≠ d then some (fmt, sortedList s) else none
            | none => none)
      | none => []
    else
      known_formats.filterMap (fun fmt =>
        (per_format fmt).map (fun s => (fmt, sortedList s)))
  if merged_dict.isEmpty then none else some (.dict merged_dict)

/-- `merge_allowed_models` from `src/core/model_permissions.py`.
`known_formats` stands for `[fmt.value for fmt in APIFormat]`; the `APIFormat`
enumeration lives in `src/core/enums.py`, absent from the tree, so the list is
a parameter here. -/
def merge_allowed_models (known_formats : List String)
    (allowed_models_1 allowed_models_2 : AllowedModels) : AllowedModels :=
  match allowed_models_1, allowed_models_2 with
  | none, _ => allowed_models_2
  | some _, none => allowed_models_1
  | some (.list l1), some (.list l2) =>
      some (.list (sortedList (l1.toFinset ∩ l2.toFinset)))
  | some v1, some v2 => merge_dict_branch known_formats v1 v2

end ModelPermissions

/-! ## Concrete keys used by counterexamples and witnesses -/

/-- An adaptive key with a stale learned limit: learned 100, last 429 at
time 0, empty history. -/
def kStale : ProviderAPIKey :=
  ⟨none, some 100, none, some 0, none, 0, 0, [], [], none⟩

/-- An adaptive key right after a confirmed observation-based limit:
learned 38 with base confidence 0.6, last 429 at time 0. -/
def kLearned : ProviderAPIKey :=
  ⟨none, some 38, none, some 0, none, 1, 0,
    [.adj 0 0 38 "rpm_429" (some (3/5))], [], none⟩

/-! ## Theorems -/

open AdaptiveRPM RPMDefaults ConcurrencyChecker Compatibility Orchestrator Sorter
  ModelPermissions

/-- Claim C1: for every `ProviderAPIKey`, `get_effective_limit` returns the
key's fixed `rpm_limit` whenever it is non-null; otherwise the learned limit
exactly when `learned_rpm_limit` is non-null and the current confidence is at
least `ENFORCEMENT_CONFIDENCE_THRESHOLD`; otherwise null. -/
theorem C1_effective_limit (k : ProviderAPIKey) (now : ℚ) :
    (∀ v, k.rpm_limit = some v → get_effective_limit k now = some v) ∧
    (k.rpm_limit = none → ∀ v, k.learned_rpm_limit = some v →
      ENFORCEMENT_CONFIDENCE_THRESHOLD ≤ get_confidence k now →
      get_effective_limit k now = some v) ∧
    (k.rpm_limit = none → k.learned_rpm_limit = none →
      get_effective_limit k now = none) ∧
    (k.rpm_limit = none →
      get_confidence k now < ENFORCEMENT_CONFIDENCE_THRESHOLD →
      get_effective_limit k now = none) := by
  refine ⟨fun v hv => ?_, fun hr v hl hc => ?_, fun hr hl => ?_, fun hr hc => ?_⟩
  · simp [get_effective_limit, hv]
  · simp [get_effective_limit, hr, hl, is_enforcement_active, ge_iff_le, hc]
  · simp [get_effective_limit, hr, hl]
  · cases hl : k.learned_rpm_limit with
    | none => simp [get_effective_limit, hr, hl]
    | some v =>
      simp [get_effective_limit, hr, hl, is_enforcement_active, ge_iff_le,
        not_le.mpr hc]

/-- Witness for C1 at a fixed-limit key. -/
theorem C1_effective_limit_witness :
    get_effective_limit ⟨some 7, some 100, none, none, none, 0, 0, [], [], none⟩ 0
      = some 7 :=
  (C1_effective_limit ⟨some 7, some 100, none, none, none, 0, 0, [], [], none⟩ 0).1
    7 rfl

/-- Claim C2: with a non-null effective limit `L` and reservation ratio `r`,
`check_available` admits a cached caller iff the RPM count is strictly below
`L` and a new caller iff it is strictly below `max 1 ⌊L * (1 - r)⌋`, a quota
that is at least 1 (in particular whenever `L ≥ 1`); with no effective limit
it always admits. -/
theorem C2_check_available (k : ProviderAPIKey) (now : ℚ) (key_count : Int)
    (resv : ℚ) :
    (∀ L, get_effective_limit k now = some L →
      (check_available k now key_count resv true = decide (key_count < L)) ∧
      (check_available k now key_count resv false
        = decide (key_count < available_for_new L resv)) ∧
      (1 ≤ L → 1 ≤ available_for_new L resv)) ∧
    (get_effective_limit k now = none →
      ∀ is_cached_user, check_available k now key_count resv is_cached_user = true) := by
  constructor
  · intro L hL
    refine ⟨?_, ?_, fun _ => le_max_left 1 _⟩
    · simp only [check_available, hL]
      by_cases h : key_count ≥ L
      · simp [h, not_lt.mpr h]
      · simp [h, not_le.mp h]
    · simp only [check_available, hL]
      by_cases h : key_count ≥ available_for_new L resv
      · simp [h, not_lt.mpr h]
      · simp [h, not_le.mp h]
  · intro hL is_cached_user
    simp [check_available, hL]

/-- Witness for C2 at a fixed-limit key with a half reservation. -/
theorem C2_check_available_witness :
    check_available ⟨some 10, none, none, none, none, 0, 0, [], [], none⟩ 0 3 (1/2)
      false = true ∧
    (1 : Int) ≤ available_for_new 10 (1/2) := by
  have h := (C2_check_available ⟨some 10, none, none, none, none, 0, 0, [], [], none⟩
    0 3 (1/2)).1 10 rfl
  have hq : available_for_new 10 (1/2) = 5 := by
    rw [available_for_new]
    norm_num
  refine ⟨h.2.1.trans ?_, h.2.2 (by decide)⟩
  rw [hq]
  decide

/-- Claim C10: for a key with a fixed `rpm_limit`, `handle_429_error` returns
that fixed value and leaves the whole key state — in particular all adaptive
fields — unchanged. -/
theorem C10_fixed_limit_frame (k : ProviderAPIKey) (info : RateLimitInfo)
    (current_rpm : Option Int) (now : ℚ) (v : Int) (h : k.rpm_limit = some v) :
    handle_429_error k info current_rpm now = (k, some v) := by
  simp [handle_429_error, h]

/-- Witness for C10. -/
theorem C10_fixed_limit_frame_witness :
    handle_429_error
      ⟨some 7, some 100, some 3, some 1, some .rpm, 2, 1,
        [.obs 0 (some 5) none], [⟨0, 1/2⟩], some 0⟩
      ⟨.rpm, some 50⟩ (some 10) 5
    = (⟨some 7, some 100, some 3, some 1, some .rpm, 2, 1,
        [.obs 0 (some 5) none], [⟨0, 1/2⟩], some 0⟩, some 7) :=
  C10_fixed_limit_frame _ ⟨.rpm, some 50⟩ (some 10) 5 7 rfl

/-- Claim C7: an upstream 401/403/429 never stops the failover (the record is
marked failed and the engine moves to the next candidate), while any other
4xx raises `UpstreamClientRequestError` exactly when the error classifier
judges the body a client request error. -/
theorem C7_http_error_failover (is_client_error : String → Bool)
    (status_code : Int) (error_text : String) :
    (status_code = 401 ∨ status_code = 403 ∨ status_code = 429 →
      http_error_step is_client_error status_code error_text
        = (some .failed, .nextCandidate)) ∧
    (400 ≤ status_code → status_code < 500 →
      status_code ≠ 401 → status_code ≠ 403 → status_code ≠ 429 →
      ((http_error_step is_client_error status_code error_text
          = (some .failed, .raiseClientError)) ↔ is_client_error error_text = true) ∧
      ((http_error_step is_client_error status_code error_text
          = (some .failed, .nextCandidate)) ↔ is_client_error error_text = false)) := by
  constructor
  · intro h
    have h400 : status_code ≥ 400 := by rcases h with h | h | h <;> omega
    simp [http_error_step, should_stop_on_http_error, h400, h]
  · intro h1 h2 h3 h4 h5
    have h400 : status_code ≥ 400 := h1
    have hne : ¬(status_code = 401 ∨ status_code = 403 ∨ status_code = 429) := by
      omega
    cases hc : is_client_error error_text <;>
      simp [http_error_step, should_stop_on_http_error, h400, hne, h1, h2, hc]

/-- Witness for C7: a 429 breaks to the next candidate; a 400 with a
client-error body stops the failover. -/
theorem C7_http_error_failover_witness :
    http_error_step (fun _ => true) 429 "rate limited"
      = (some .failed, .nextCandidate) ∧
    http_error_step (fun _ => true) 400 "missing field"
      = (some .failed, .raiseClientError) :=
  ⟨(C7_http_error_failover (fun _ => true) 429 "rate limited").1 (by decide),
    ((C7_http_error_failover (fun _ => true) 400 "missing field").2
      (by decide) (by decide) (by decide) (by decide) (by decide)).1.mpr rfl⟩

/-- Claim C5: passthrough law — `is_format_compatible` returns
`(true, false, none)` whenever the two signatures are equal, and whenever
they share the same `data_format_id`, for every endpoint acceptance config,
stream flag, conversion switch and `skip_endpoint_check`. -/
theorem C5_passthrough_law (data_format_id : String → String)
    (can_convert_full : String → String → Bool → Bool) (s t : String)
    (config : Option AcceptanceConfig) (is_stream : Bool)
    (effective_conversion_enabled : Bool) (skip_endpoint_check : Bool) :
    is_format_compatible data_format_id can_convert_full s s config is_stream
      effective_conversion_enabled skip_endpoint_check = (true, false, none) ∧
    (data_format_id (pyUpper s) = data_format_id (pyUpper t) →
      is_format_compatible data_format_id can_convert_full s t config is_stream
        effective_conversion_enabled skip_endpoint_check = (true, false, none)) := by
  constructor
  · simp [is_format_compatible]
  · intro h
    by_cases he : pyUpper t = pyUpper s
    · simp [is_format_compatible, he]
    · simp [is_format_compatible, he, h]

/-- Witness for C5: `claude:chat` and `claude:cli` share the data format
`claude` and pass through. -/
theorem C5_passthrough_law_witness :
    is_format_compatible (fun k => if k = "CLAUDE:CHAT" ∨ k = "CLAUDE:CLI" then
        "CLAUDE" else k)
      (fun _ _ _ => false) "claude:chat" "claude:cli" none true false false
      = (true, false, none) :=
  (C5_passthrough_law (fun k => if k = "CLAUDE:CHAT" ∨ k = "CLAUDE:CLI" then
        "CLAUDE" else k)
      (fun _ _ _ => false) "claude:chat" "claude:cli" none true false false).2
    (by decide)

/-- Claim C6: a cross-data-format request with `skip_endpoint_check = false`
and a null endpoint acceptance config is rejected with the
"endpoint not configured" reason, for either value of
`effective_conversion_enabled`; the conversion switch never changes the
verdict of `is_format_compatible` by itself. -/
theorem C6_endpoint_not_configured (data_format_id : String → String)
    (can_convert_full : String → String → Bool → Bool) (s t : String)
    (is_stream : Bool) (effective_conversion_enabled : Bool)
    (hne : pyUpper t ≠ pyUpper s)
    (hdf : data_format_id (pyUpper s) ≠ data_format_id (pyUpper t)) :
    is_format_compatible data_format_id can_convert_full s t none is_stream
      effective_conversion_enabled false
      = (false, false, some .endpointNotConfigured) ∧
    (∀ (config : Option AcceptanceConfig) (skip_endpoint_check e1 e2 : Bool),
      is_format_compatible data_format_id can_convert_full s t config is_stream
        e1 skip_endpoint_check
      = is_format_compatible data_format_id can_convert_full s t config is_stream
        e2 skip_endpoint_check) := by
  refine ⟨?_, fun config skip_endpoint_check e1 e2 => rfl⟩
  simp [is_format_compatible, hne, hdf]

/-- Witness for C6: `claude:chat` against an unconfigured `openai:chat`
endpoint with the global conversion switch off. -/
theorem C6_endpoint_not_configured_witness :
    is_format_compatible (fun k => if k = "CLAUDE:CHAT" then "CLAUDE" else k)
      (fun _ _ _ => true) "claude:chat" "openai:chat" none false false false
      = (false, false, some .endpointNotConfigured) :=
  (C6_endpoint_not_configured (fun k => if k = "CLAUDE:CHAT" then "CLAUDE" else k)
      (fun _ _ _ => true) "claude:chat" "openai:chat" false false
      (by decide) (by decide)).1

/-- `_evaluate_observations` reads only the adjustment history. -/
theorem evaluate_observations_hist_congr (a b : ProviderAPIKey)
    (h : a.adjustment_history = b.adjustment_history) :
    evaluate_observations a = evaluate_observations b := by
  unfold evaluate_observations
  rw [h]

/-- Closed form of `get_confidence` when no limit has been learned. -/
theorem get_confidence_of_none (k : ProviderAPIKey) (now : ℚ)
    (hl : k.learned_rpm_limit = none) : get_confidence k now = 0 := by
  unfold get_confidence
  rw [hl]

/-- Closed form of `get_confidence` when the base confidence is
non-positive. -/
theorem get_confidence_of_nonpos (k : ProviderAPIKey) (now : ℚ) (v : Int)
    (hl : k.learned_rpm_limit = some v) (hb : get_base_confidence k ≤ 0) :
    get_confidence k now = 0 := by
  unfold get_confidence
  rw [hl]
  simp only
  rw [if_pos hb]

/-- Closed form of `get_confidence` with a recorded last 429. -/
theorem get_confidence_of_429 (k : ProviderAPIKey) (now : ℚ) (v : Int) (t0 : ℚ)
    (hl : k.learned_rpm_limit = some v) (h4 : k.last_429_at = some t0)
    (hb : ¬ get_base_confidence k ≤ 0) :
    get_confidence k now = min (max 0 (get_base_confidence k
      - max 0 ((now - t0) / 60) * CONFIDENCE_DECAY_PER_MINUTE)) 1 := by
  unfold get_confidence
  rw [hl]
  simp only
  rw [if_neg hb, h4]

/-- Closed form of `get_confidence` when no 429 was ever recorded: the decay
is fixed at 1. -/
theorem get_confidence_of_no429 (k : ProviderAPIKey) (now : ℚ) (v : Int)
    (hl : k.learned_rpm_limit = some v) (h4 : k.last_429_at = none)
    (hb : ¬ get_base_confidence k ≤ 0) :
    get_confidence k now = min (max 0 (get_base_confidence k - 1)) 1 := by
  unfold get_confidence
  rw [hl]
  simp only
  rw [if_neg hb, h4]

/-- The observation recorder leaves `learned_rpm_limit` untouched. -/
theorem record_429_observation_learned (k : ProviderAPIKey) (now : ℚ)
    (c u : Option Int) :
    (record_429_observation k now c u).learned_rpm_limit = k.learned_rpm_limit :=
  rfl

/-- Specialisation of `evaluate_observations_hist_congr`: the scalar-field
updates made by `handle_429_error` before recording the observation do not
affect the evaluation. -/
theorem evaluate_observations_record_fields (k : ProviderAPIKey)
    (rl : Option Int) (l4 : Option ℚ) (lt : Option RateLimitType)
    (us : List Sample) (rc : Int) (now : ℚ) (c u : Option Int) :
    evaluate_observations (record_429_observation
      { k with
        rpm_limit := rl
        last_429_at := l4
        last_429_type := lt
        utilization_samples := us
        rpm_429_count := rc } now c u)
    = evaluate_observations (record_429_observation k now c u) :=
  evaluate_observations_hist_congr _ _ rfl

/-- Claim C4 (counterexample to strictness): once the decayed confidence has
been clamped at 0, time passing between two 429 observations no longer
strictly decreases it. -/
theorem C4_strict_decrease_counterexample :
    (4200 : ℚ) < 4800 ∧
    get_confidence kLearned 4200 = get_confidence kLearned 4800 ∧
    get_confidence kLearned 4200 = 0 := by
  have h1 : get_confidence kLearned 4200 = 0 := by
    simp only [get_confidence, get_base_confidence, evaluate_observations, kLearned,
      List.reverse_cons, List.reverse_nil, List.nil_append, List.findSome?]
    norm_num [CONFIDENCE_DECAY_PER_MINUTE, max_def, min_def]
  have h2 : get_confidence kLearned 4800 = 0 := by
    simp only [get_confidence, get_base_confidence, evaluate_observations, kLearned,
      List.reverse_cons, List.reverse_nil, List.nil_append, List.findSome?]
    norm_num [CONFIDENCE_DECAY_PER_MINUTE, max_def, min_def]
  exact ⟨by norm_num, h1.trans h2.symm, h1⟩

/-- Claim C4 (amended): `get_confidence` is bounded in `[0, 1]` and is
non-increasing in the time elapsed since the last 429 observation; the
decrease is strict only while the clamps are inactive, i.e. when the later
confidence is still positive and the earlier one below 1. -/
theorem C4_confidence_bounded_monotone (k : ProviderAPIKey) :
    (∀ now, 0 ≤ get_confidence k now ∧ get_confidence k now ≤ 1) ∧
    (∀ t1 t2, t1 ≤ t2 → get_confidence k t2 ≤ get_confidence k t1) ∧
    (∀ t0 t1 t2, k.last_429_at = some t0 → t0 ≤ t1 → t1 < t2 →
      0 < get_confidence k t2 → get_confidence k t1 < 1 →
      get_confidence k t2 < get_confidence k t1) := by
  refine ⟨fun now => ?_, fun t1 t2 h12 => ?_, fun t0 t1 t2 h0 h01 h12 hpos hlt1 => ?_⟩
  · cases hlearn : k.learned_rpm_limit with
    | none => rw [get_confidence_of_none k now hlearn]; norm_num
    | some v =>
      by_cases hb : get_base_confidence k ≤ 0
      · rw [get_confidence_of_nonpos k now v hlearn hb]; norm_num
      · cases h4 : k.last_429_at with
        | none =>
          rw [get_confidence_of_no429 k now v hlearn h4 hb]
          exact ⟨le_min (le_max_left 0 _) zero_le_one, min_le_right _ _⟩
        | some t =>
          rw [get_confidence_of_429 k now v t hlearn h4 hb]
          exact ⟨le_min (le_max_left 0 _) zero_le_one, min_le_right _ _⟩
  · cases hlearn : k.learned_rpm_limit with
    | none => rw [get_confidence_of_none k t1 hlearn, get_confidence_of_none k t2 hlearn]
    | some v =>
      by_cases hb : get_base_confidence k ≤ 0
      · rw [get_confidence_of_nonpos k t1 v hlearn hb,
          get_confidence_of_nonpos k t2 v hlearn hb]
      · cases h4 : k.last_429_at with
        | none =>
          rw [get_confidence_of_no429 k t1 v hlearn h4 hb,
            get_confidence_of_no429 k t2 v hlearn h4 hb]
        | some t =>
          rw [get_confidence_of_429 k t1 v t hlearn h4 hb,
            get_confidence_of_429 k t2 v t hlearn h4 hb]
          have hd : max 0 ((t1 - t) / 60) * CONFIDENCE_DECAY_PER_MINUTE
              ≤ max 0 ((t2 - t) / 60) * CONFIDENCE_DECAY_PER_MINUTE := by
            have hmx : max 0 ((t1 - t) / 60) ≤ max 0 ((t2 - t) / 60) := by
              apply max_le_max le_rfl
              apply div_le_div_of_nonneg_right (by linarith) (by norm_num)
            exact mul_le_mul_of_nonneg_right hmx
              (by norm_num [CONFIDENCE_DECAY_PER_MINUTE])
          exact min_le_min (max_le_max le_rfl (by linarith)) le_rfl
  · cases hlearn : k.learned_rpm_limit with
    | none => rw [get_confidence_of_none k t2 hlearn] at hpos; norm_num at hpos
    | some v =>
      by_cases hb : get_base_confidence k ≤ 0
      · rw [get_confidence_of_nonpos k t2 v hlearn hb] at hpos; norm_num at hpos
      · rw [get_confidence_of_429 k t1 v t0 hlearn h0 hb] at hlt1 ⊢
        rw [get_confidence_of_429 k t2 v t0 hlearn h0 hb] at hpos ⊢
        set base := get_base_confidence k with hbase
        set c := CONFIDENCE_DECAY_PER_MINUTE with hc
        have hcpos : (0 : ℚ) < c := by rw [hc]; norm_num [CONFIDENCE_DECAY_PER_MINUTE]
        have hm1 : max 0 ((t1 - t0) / 60) = (t1 - t0) / 60 :=
          max_eq_right (div_nonneg (by linarith) (by norm_num))
        have hm2 : max 0 ((t2 - t0) / 60) = (t2 - t0) / 60 :=
          max_eq_right (div_nonneg (by linarith) (by norm_num))
        rw [hm1] at hlt1 ⊢
        rw [hm2] at hpos ⊢
        have hd12 : (t1 - t0) / 60 * c < (t2 - t0) / 60 * c := by
          apply mul_lt_mul_of_pos_right _ hcpos
          exact (div_lt_div_iff_of_pos_right (by norm_num)).mpr (by linarith)
        have hx2 : 0 < max 0 (base - (t2 - t0) / 60 * c) :=
          lt_of_lt_of_le hpos (min_le_left _ _)
        have hy2 : 0 < base - (t2 - t0) / 60 * c := by
          by_contra h
          push_neg at h
          rw [max_eq_left h] at hx2
          exact lt_irrefl 0 hx2
        have hy1 : 0 < base - (t1 - t0) / 60 * c := by linarith
        rw [max_eq_right hy1.le] at hlt1 ⊢
        rw [max_eq_right hy2.le]
        have hb1 : base - (t1 - t0) / 60 * c < 1 := by
          by_contra h
          push_neg at h
          rw [min_eq_right h] at hlt1
          exact lt_irrefl 1 hlt1
        rw [min_eq_left hb1.le]
        exact lt_of_le_of_lt (min_le_left _ _) (by linarith)

/-- Witness for C4's strict part: one and two minutes after a confirmed
0.6-confidence observation, confidence strictly decreases. -/
theorem C4_confidence_bounded_monotone_witness :
    get_confidence kLearned 120 < get_confidence kLearned 60 := by
  have hbase : get_base_confidence kLearned = 3/5 := by
    simp [get_base_confidence, kLearned, List.findSome?]
  have hb : ¬ get_base_confidence kLearned ≤ 0 := by rw [hbase]; norm_num
  have h120 : get_confidence kLearned 120 = 29/50 := by
    rw [get_confidence_of_429 kLearned 120 38 0 rfl rfl hb, hbase]
    norm_num [CONFIDENCE_DECAY_PER_MINUTE, max_def, min_def]
  have h60 : get_confidence kLearned 60 = 59/100 := by
    rw [get_confidence_of_429 kLearned 60 38 0 rfl rfl hb, hbase]
    norm_num [CONFIDENCE_DECAY_PER_MINUTE, max_def, min_def]
  exact (C4_confidence_bounded_monotone kLearned).2.2 0 60 120 rfl (by norm_num)
    (by norm_num) (by rw [h120]; norm_num) (by rw [h60]; norm_num)

/-- Claim C3 (counterexample): `handle_429_error` on an unknown 429 type
applies a conservative decrease to an already-learned limit even though the
key's confidence is 0, far below `ENFORCEMENT_CONFIDENCE_THRESHOLD`. -/
theorem C3_counterexample :
    (handle_429_error kStale ⟨.unknown, none⟩ none 60000).1.learned_rpm_limit
      = some 95 ∧
    kStale.learned_rpm_limit = some 100 ∧
    get_confidence kStale 60000 = 0 ∧
    get_confidence kStale 60000 < ENFORCEMENT_CONFIDENCE_THRESHOLD := by
  have hconf : get_confidence kStale 60000 = 0 := by
    have hbase : get_base_confidence kStale = 3/10 := by
      simp [get_base_confidence, kStale, evaluate_observations, List.findSome?]
    rw [get_confidence_of_429 kStale 60000 100 0 rfl rfl (by rw [hbase]; norm_num),
      hbase]
    norm_num [CONFIDENCE_DECAY_PER_MINUTE, max_def, min_def]
  refine ⟨?_, rfl, hconf, by rw [hconf]; norm_num [ENFORCEMENT_CONFIDENCE_THRESHOLD]⟩
  simp only [handle_429_error, kStale]
  norm_num [record_adjustment, trim_history, MAX_HISTORY_RECORDS, pyInt,
    MIN_RPM_LIMIT, max_def, min_def]

/-- Claim C3 (amended): for a 429 of type RPM or CONCURRENT and for
`handle_success`, `learned_rpm_limit` is set or updated only when the
manager's confidence evaluation reaches `ENFORCEMENT_CONFIDENCE_THRESHOLD`;
for an unknown 429 type the manager additionally applies a conservative 5 %
decrease to an already-set `learned_rpm_limit` without a confidence check
(it never sets a limit when none was learned). -/
theorem C3_learned_limit_write_gated (k : ProviderAPIKey) (info : RateLimitInfo)
    (current_rpm : Option Int) (now : ℚ) :
    (info.limit_type = .rpm →
      (handle_429_error k info current_rpm now).1.learned_rpm_limit
          ≠ k.learned_rpm_limit →
      (evaluate_observations
          (record_429_observation k now current_rpm info.limit_value)).1.isSome ∧
      ENFORCEMENT_CONFIDENCE_THRESHOLD ≤
        (evaluate_observations
          (record_429_observation k now current_rpm info.limit_value)).2) ∧
    (info.limit_type = .concurrent →
      (handle_429_error k info current_rpm now).1.learned_rpm_limit
        = k.learned_rpm_limit) ∧
    (info.limit_type = .unknown → k.learned_rpm_limit = none →
      (handle_429_error k info current_rpm now).1.learned_rpm_limit = none) ∧
    (info.limit_type = .unknown → k.rpm_limit = none →
      ∀ old, k.learned_rpm_limit = some old →
      (handle_429_error k info current_rpm now).1.learned_rpm_limit
        = some (max (pyInt ((old : ℚ) * (19/20))) MIN_RPM_LIMIT)) ∧
    (∀ c now2,
      (handle_success k c now2).1.learned_rpm_limit ≠ k.learned_rpm_limit →
      ENFORCEMENT_CONFIDENCE_THRESHOLD ≤ get_confidence k now2) := by
  refine ⟨fun hty hne => ?_, fun hty => ?_, fun hty hl => ?_,
    fun hty hr old hl => ?_, fun c now2 hne => ?_⟩
  · by_contra hgate
    apply hne
    cases hr : k.rpm_limit with
    | some v => simp [handle_429_error, hr]
    | none =>
      simp only [handle_429_error, hr, hty]
      rw [evaluate_observations_record_fields]
      cases heval : (evaluate_observations
          (record_429_observation k now current_rpm info.limit_value)).1 with
      | none => simp [record_429_observation_learned]
      | some l =>
        have hnc : ¬ (evaluate_observations
            (record_429_observation k now current_rpm info.limit_value)).2
            ≥ ENFORCEMENT_CONFIDENCE_THRESHOLD := by
          intro hge
          exact hgate ⟨by rw [heval]; rfl, hge⟩
        simp [heval, hnc, record_429_observation_learned]
  · cases hr : k.rpm_limit with
    | some v => simp [handle_429_error, hr]
    | none => simp [handle_429_error, hr, hty]
  · cases hr : k.rpm_limit with
    | some v => simp [handle_429_error, hr, hl]
    | none => simp [handle_429_error, hr, hty, hl]
  · simp [handle_429_error, hr, hty, hl]
  · by_contra hc
    push_neg at hc
    apply hne
    cases hr : k.rpm_limit with
    | some v => simp [handle_success, hr]
    | none =>
      cases hl : k.learned_rpm_limit with
      | none => simp [handle_success, hr, hl]
      | some learned => simp [handle_success, hr, hl, hc]

/-- Witness for C3 (amended) at a CONCURRENT 429: the learned limit is left
unchanged. -/
theorem C3_learned_limit_write_gated_witness :
    (handle_429_error kLearned ⟨.concurrent, none⟩ (some 5) 60).1.learned_rpm_limit
      = kLearned.learned_rpm_limit :=
  (C3_learned_limit_write_gated kLearned ⟨.concurrent, none⟩ (some 5) 60).2.1 rfl

/-- Unfolding of the candidate sort key's lexicographic order. -/
theorem sort_key_le_iff (mode : PriorityMode) (gk : Bool)
    (a b : SorterCandidate) :
    (sort_key mode gk a ≤ sort_key mode gk b) ↔
      (demote_group gk a < demote_group gk b ∨
        (demote_group gk a = demote_group gk b ∧
          priority_pair mode a ≤ priority_pair mode b)) := by
  unfold sort_key
  exact Prod.Lex.le_iff _ _

/-- The sorter's output is sorted by the full key. -/
theorem apply_priority_mode_sort_sorted (mode : PriorityMode) (gk : Bool)
    (l : List SorterCandidate) :
    (apply_priority_mode_sort mode gk l).Sorted
      (fun a b => sort_key mode gk a ≤ sort_key mode gk b) := by
  haveI : IsTotal SorterCandidate
      (fun a b => sort_key mode gk a ≤ sort_key mode gk b) :=
    ⟨fun a b => le_total _ _⟩
  haveI : IsTrans SorterCandidate
      (fun a b => sort_key mode gk a ≤ sort_key mode gk b) :=
    ⟨fun a b c hab hbc => le_trans hab hbc⟩
  exact List.sorted_insertionSort _ l

/-- Claim C9: in the priority sort, when the global
`keep_priority_on_conversion` flag is false every conversion-requiring
candidate whose Provider does not override is placed after every candidate
that needs no conversion and after every conversion-requiring candidate whose
Provider does override (those are not demoted); when the global flag is true
the output is ordered purely by priority.  The output is always a permutation
of the input. -/
theorem C9_conversion_demotion (mode : PriorityMode) (global_keep : Bool)
    (l : List SorterCandidate) :
    (apply_priority_mode_sort mode global_keep l).Perm l ∧
    (global_keep = false →
      ∀ i j (hi : i < (apply_priority_mode_sort mode global_keep l).length)
        (hj : j < (apply_priority_mode_sort mode global_keep l).length),
        (((apply_priority_mode_sort mode global_keep l).get
            ⟨i, hi⟩).needs_conversion = false ∨
          (((apply_priority_mode_sort mode global_keep l).get
              ⟨i, hi⟩).needs_conversion = true ∧
            ((apply_priority_mode_sort mode global_keep l).get
              ⟨i, hi⟩).provider_keep_priority_on_conversion = true)) →
        ((apply_priority_mode_sort mode global_keep l).get
          ⟨j, hj⟩).needs_conversion = true →
        ((apply_priority_mode_sort mode global_keep l).get
          ⟨j, hj⟩).provider_keep_priority_on_conversion = false →
        i < j) ∧
    (global_keep = true →
      (apply_priority_mode_sort mode global_keep l).Sorted
        (fun a b => priority_pair mode a ≤ priority_pair mode b)) := by
  have hsorted := apply_priority_mode_sort_sorted mode global_keep l
  refine ⟨List.perm_insertionSort _ l, fun hgk i j hi hj hdisj hconv hkeep => ?_,
    fun hgk => ?_⟩
  · subst hgk
    simp only [List.get_eq_getElem] at hdisj hconv hkeep
    have hgj : demote_group false
        ((apply_priority_mode_sort mode false l).get ⟨j, hj⟩) = 1 := by
      simp [demote_group, List.get_eq_getElem, hconv, hkeep]
    have hgi : demote_group false
        ((apply_priority_mode_sort mode false l).get ⟨i, hi⟩) = 0 := by
      rcases hdisj with h | ⟨h1, h2⟩
      · simp [demote_group, List.get_eq_getElem, h]
      · simp [demote_group, List.get_eq_getElem, h1, h2]
    by_contra hij
    push_neg at hij
    rcases eq_or_lt_of_le hij with heq | hlt
    · cases heq
      exact absurd (hgi.symm.trans hgj) (by decide)
    · have hr := hsorted.rel_get_of_lt (a := ⟨j, hj⟩) (b := ⟨i, hi⟩)
        (Fin.mk_lt_mk.mpr hlt)
      rw [sort_key_le_iff] at hr
      rcases hr with h | ⟨h, _⟩
      · rw [hgi, hgj] at h
        exact absurd h (by decide)
      · rw [hgi, hgj] at h
        exact absurd h (by decide)
  · subst hgk
    refine hsorted.imp fun hab => ?_
    rw [sort_key_le_iff] at hab
    rcases hab with h | ⟨h, hp⟩
    · simp [demote_group] at h
    · exact hp

/-- The three candidates of the Provider-override sorter unit test. -/
def c9_exact : SorterCandidate := ⟨"k_exact", 1, 1, 10, false, false⟩

/-- Conversion-requiring candidate without the Provider override. -/
def c9_demote : SorterCandidate := ⟨"k_demote", 1, 1, 0, true, false⟩

/-- Conversion-requiring candidate whose Provider keeps priority. -/
def c9_keep : SorterCandidate := ⟨"k_keep", 1, 1, 1, true, true⟩

/-- Witness for C9 on the unit test's input: the Provider-override candidate
(index 0 of the output) precedes the demoted candidate (index 2). -/
theorem C9_conversion_demotion_witness :
    (apply_priority_mode_sort .global_key false
      [c9_exact, c9_demote, c9_keep]).Perm [c9_exact, c9_demote, c9_keep] ∧
    (0 : Nat) < 2 := by
  have h := C9_conversion_demotion .global_key false [c9_exact, c9_demote, c9_keep]
  exact ⟨h.1, h.2.1 rfl 0 2 (by decide) (by decide)
    (Or.inr ⟨by decide, by decide⟩) (by decide) (by decide)⟩

/-- Sorting a finset of strings and collecting the result back loses
nothing. -/
theorem toFinset_sortedList (s : Finset String) : (sortedList s).toFinset = s := by
  ext a
  simp [sortedList, List.mem_toFinset, Finset.mem_sort]

/-- `List.lookup` misses a key that no produced entry carries. -/
theorem lookup_filterMap_eq_none (g : String → Option (String × List String))
    (fmt : String) :
    ∀ (l : List String), (∀ x ∈ l, ∀ p, g x = some p → p.1 ≠ fmt) →
      (l.filterMap g).lookup fmt = none := by
  intro l
  induction l with
  | nil => intro _; rfl
  | cons x xs ih =>
    intro h
    rw [List.filterMap_cons]
    cases hx : g x with
    | none => exact ih (fun y hy => h y (List.mem_cons_of_mem x hy))
    | some p =>
      obtain ⟨pk, pv⟩ := p
      have hne : pk ≠ fmt := h x (List.mem_cons_self x xs) (pk, pv) hx
      rw [List.lookup_cons]
      have : (fmt == pk) = false := by
        simp [beq_iff_eq]
        exact fun he => hne he.symm
      rw [this]
      exact ih (fun y hy => h y (List.mem_cons_of_mem x hy))

/-- `List.lookup` finds the entry produced for a listed key, provided every
entry's key is the element that produced it. -/
theorem lookup_filterMap_eq_some (g : String → Option (String × List String))
    (hkey : ∀ x p, g x = some p → p.1 = x) :
    ∀ (l : List String) (fmt : String) (v : List String),
      fmt ∈ l → g fmt = some (fmt, v) → (l.filterMap g).lookup fmt = some v := by
  intro l
  induction l with
  | nil => intro fmt v hmem; exact absurd hmem (List.not_mem_nil fmt)
  | cons x xs ih =>
    intro fmt v hmem hg
    by_cases hxf : x = fmt
    · subst hxf
      rw [List.filterMap_cons, hg, List.lookup_cons]
      simp
    · have hmem' : fmt ∈ xs := by
        rcases List.mem_cons.mp hmem with h | h
        · exact absurd h.symm hxf
        · exact h
      rw [List.filterMap_cons]
      cases hx : g x with
      | none => exact ih fmt v hmem' hg
      | some p =>
        obtain ⟨pk, pv⟩ := p
        have hpk : pk = x := hkey x (pk, pv) hx
        rw [List.lookup_cons]
        have : (fmt == pk) = false := by
          simp [beq_iff_eq]
          intro he
          exact hxf (by rw [← hpk, ← he])
        rw [this]
        exact ih fmt v hmem' hg

/-- The dict branch of the merge never yields a flat list. -/
theorem merge_dict_branch_not_list (kf : List String) (v1 v2 : AllowedModelsVal)
    (l : List String) :
    merge_dict_branch kf v1 v2 ≠ some (.list l) := by
  unfold merge_dict_branch
  simp only
  split
  · simp
  · simp

/-- In the dict branch, every hygienic known format resolves to the
per-format intersection of the two sides. -/
theorem merge_dict_branch_normalize (kf : List String) (v1 v2 : AllowedModelsVal)
    (hstar : "*" ∉ kf) (hupper : ∀ f ∈ kf, pyUpper f = f)
    (fmt : String) (hfmt : fmt ∈ kf) :
    normalize_allowed_models (merge_dict_branch kf v1 v2) (some fmt)
      = per_format_merge v1 v2 fmt := by
  have hfup : pyUpper fmt = fmt := hupper fmt hfmt
  have hfstar : fmt ≠ "*" := fun h => hstar (h ▸ hfmt)
  unfold merge_dict_branch
  simp only
  by_cases hW : ((per_format_merge v1 v2 "__DEFAULT__").isSome
      && kf.all (fun f => (per_format_merge v1 v2 f).isSome)) = true
  · rw [if_pos hW]
    obtain ⟨hD, hall⟩ := Bool.and_eq_true_iff.mp hW
    obtain ⟨d, hd⟩ := Option.isSome_iff_exists.mp hD
    have hPf : (per_format_merge v1 v2 fmt).isSome := by
      have h := List.all_eq_true.mp hall fmt hfmt
      exact h
    obtain ⟨s, hs⟩ := Option.isSome_iff_exists.mp hPf
    rw [hd]
    rw [if_neg (by simp)]
    simp only [normalize_allowed_models, hfup]
    rw [List.lookup_cons]
    have hne : (fmt == "*") = false := by
      simp [beq_iff_eq]
      exact hfstar
    rw [hne]
    by_cases hsd : s = d
    · have hlook : (kf.filterMap (fun f =>
          match per_format_merge v1 v2 f with
          | some s => if s ≠ d then some (f, sortedList s) else none
          | none => none)).lookup fmt = none := by
        apply lookup_filterMap_eq_none
        intro x hx p hp
        rcases hpx : per_format_merge v1 v2 x with _ | sx
        · simp only [hpx] at hp
          exact absurd hp (by simp)
        · simp only [hpx] at hp
          by_cases hsx : sx = d
          · rw [if_neg (by simp [hsx])] at hp
            exact absurd hp (by simp)
          · rw [if_pos (by simp [hsx])] at hp
            have hp1 : p.1 = x := by rw [← Option.some.inj hp]
            rw [hp1]
            intro hxf
            rw [hxf, hs] at hpx
            exact hsx (by injection hpx with h; rw [← h, hsd])
      rw [hlook]
      rw [List.lookup_cons]
      simp only [beq_self_eq_true]
      rw [hs, hsd]
      simp [toFinset_sortedList]
    · have hg : (fun f =>
          match per_format_merge v1 v2 f with
          | some s => if s ≠ d then some (f, sortedList s) else none
          | none => none) fmt = some (fmt, sortedList s) := by
        simp only [hs]
        rw [if_pos (by simp [hsd])]
      have hlook : (kf.filterMap (fun f =>
          match per_format_merge v1 v2 f with
          | some s => if s ≠ d then some (f, sortedList s) else none
          | none => none)).lookup fmt = some (sortedList s) := by
        apply lookup_filterMap_eq_some _ _ kf fmt _ hfmt hg
        intro x p hp
        rcases hpx : per_format_merge v1 v2 x with _ | sx
        · simp only [hpx] at hp
          exact absurd hp (by simp)
        · simp only [hpx] at hp
          by_cases hsx : sx = d
          · rw [if_neg (by simp [hsx])] at hp
            exact absurd hp (by simp)
          · rw [if_pos (by simp [hsx])] at hp
            rw [← Option.some.inj hp]
      rw [hlook]
      rw [hs]
      simp [toFinset_sortedList]
  · rw [if_neg hW]
    by_cases hE : (kf.filterMap (fun f =>
        (per_format_merge v1 v2 f).map (fun s => (f, sortedList s)))).isEmpty = true
    · rw [if_pos hE]
      have hPf : per_format_merge v1 v2 fmt = none := by
        have h0 := List.filterMap_eq_nil_iff.mp (List.isEmpty_iff.mp hE) fmt hfmt
        exact Option.map_eq_none.mp h0
      rw [hPf]
      rfl
    · rw [if_neg hE]
      simp only [normalize_allowed_models, hfup]
      have hkey : ∀ x p, ((per_format_merge v1 v2 x).map
          (fun s => (x, sortedList s))) = some p → p.1 = x := by
        intro x p hp
        rcases hpx : per_format_merge v1 v2 x with _ | sx
        · simp only [hpx] at hp
          exact absurd hp (by simp)
        · simp only [hpx, Option.map_some', Option.some.injEq] at hp
          rw [← hp]
      cases hp : per_format_merge v1 v2 fmt with
      | some s =>
        have hlook : (kf.filterMap (fun f =>
            (per_format_merge v1 v2 f).map (fun s => (f, sortedList s)))).lookup fmt
            = some (sortedList s) := by
          apply lookup_filterMap_eq_some _ hkey kf fmt _ hfmt
          rw [hp]
          rfl
        rw [hlook]
        simp [toFinset_sortedList]
      | none =>
        have hlook : (kf.filterMap (fun f =>
            (per_format_merge v1 v2 f).map (fun s => (f, sortedList s)))).lookup fmt
            = none := by
          apply lookup_filterMap_eq_none
          intro x hx p hpp
          have hx1 := hkey x p hpp
          rw [hx1]
          intro hxf
          rw [hxf, hp] at hpp
          exact absurd hpp (by simp)
        have hlookstar : (kf.filterMap (fun f =>
            (per_format_merge v1 v2 f).map (fun s => (f, sortedList s)))).lookup "*"
            = none := by
          apply lookup_filterMap_eq_none
          intro x hx p hpp
          have hx1 := hkey x p hpp
          rw [hx1]
          intro hxs
          exact hstar (hxs ▸ hx)
        rw [hlook, hlookstar]

/-- A null second argument returns the first. -/
theorem merge_allowed_models_none_right (kf : List String)
    (v : AllowedModelsVal) :
    merge_allowed_models kf (some v) none = some v := by
  cases v <;> rfl

/-- Claim C8 (counterexample): merging two empty maps yields null, not a map,
so "when either side is a map the result is always a map" fails as stated. -/
theorem C8_map_result_counterexample :
    merge_allowed_models ["CLAUDE", "OPENAI"] (some (.dict [])) (some (.dict []))
      = none := by
  rfl

/-- Claim C8 (amended): merging takes the intersection per signature — a null
side returns the other side; two flat lists merge to the sorted list
intersection; when either side is a map the result is never a flat list (it
is a map, or null when every known format ends up unrestricted); and under
the merged value every known (uppercase, non-`"*"`) format resolves to the
intersection of what the two sides allow for that format. -/
theorem C8_merge_intersection (known_formats : List String)
    (a b : AllowedModels) :
    (a = none → merge_allowed_models known_formats a b = b) ∧
    (b = none → merge_allowed_models known_formats a b = a) ∧
    (∀ l1 l2, a = some (.list l1) → b = some (.list l2) →
      merge_allowed_models known_formats a b
        = some (.list (sortedList (l1.toFinset ∩ l2.toFinset)))) ∧
    ((∃ m, a = some (.dict m)) ∨ (∃ m, b = some (.dict m)) →
      ∀ l, merge_allowed_models known_formats a b ≠ some (.list l)) ∧
    ("*" ∉ known_formats → (∀ f ∈ known_formats, pyUpper f = f) →
      ∀ fmt ∈ known_formats,
        normalize_allowed_models (merge_allowed_models known_formats a b)
          (some fmt)
        = merge_sets (normalize_allowed_models a (some fmt))
            (normalize_allowed_models b (some fmt))) := by
  refine ⟨fun ha => ?_, fun hb => ?_, fun l1 l2 ha hb => ?_, fun hdict l => ?_,
    fun hstar hupper fmt hfmt => ?_⟩
  · subst ha; rfl
  · subst hb
    cases a with
    | none => rfl
    | some v => exact merge_allowed_models_none_right known_formats v
  · subst ha; subst hb; rfl
  · cases a with
    | none =>
      rcases hdict with ⟨m, hm⟩ | ⟨m, hm⟩
      · exact absurd hm (by simp)
      · rw [show merge_allowed_models known_formats none b = b from rfl, hm]
        simp
    | some v1 =>
      cases b with
      | none =>
        rcases hdict with ⟨m, hm⟩ | ⟨m, hm⟩
        · rw [merge_allowed_models_none_right known_formats v1, hm]
          simp
        · exact absurd hm (by simp)
      | some v2 =>
        cases v1 with
        | dict m1 =>
          cases v2 with
          | list l2 => exact merge_dict_branch_not_list known_formats _ _ l
          | dict m2 => exact merge_dict_branch_not_list known_formats _ _ l
        | list l1 =>
          cases v2 with
          | dict m2 => exact merge_dict_branch_not_list known_formats _ _ l
          | list l2 =>
            rcases hdict with ⟨m, hm⟩ | ⟨m, hm⟩ <;> simp at hm
  · cases a with
    | none => rfl
    | some v1 =>
      cases b with
      | none =>
        cases h1 : normalize_allowed_models (some v1) (some fmt) with
        | none => rw [merge_allowed_models_none_right known_formats v1, h1]; rfl
        | some s => rw [merge_allowed_models_none_right known_formats v1, h1]; rfl
      | some v2 =>
        cases v1 with
        | dict m1 =>
          cases v2 with
          | list l2 =>
            exact merge_dict_branch_normalize known_formats _ _ hstar hupper
              fmt hfmt
          | dict m2 =>
            exact merge_dict_branch_normalize known_formats _ _ hstar hupper
              fmt hfmt
        | list l1 =>
          cases v2 with
          | dict m2 =>
            exact merge_dict_branch_normalize known_formats _ _ hstar hupper
              fmt hfmt
          | list l2 =>
            simp [merge_allowed_models, normalize_allowed_models, merge_sets,
              toFinset_sortedList]

/-- Witness for C8 (amended) on a dict/list merge: the `CLAUDE` entry of the
merged value is the intersection of the two sides' `CLAUDE` sets. -/
theorem C8_merge_intersection_witness :
    normalize_allowed_models
      (merge_allowed_models ["CLAUDE", "OPENAI"]
        (some (.dict [("CLAUDE", ["m1", "m2"])])) (some (.list ["m2", "m3"])))
      (some "CLAUDE")
    = merge_sets
        (normalize_allowed_models (some (.dict [("CLAUDE", ["m1", "m2"])]))
          (some "CLAUDE"))
        (normalize_allowed_models (some (.list ["m2", "m3"])) (some "CLAUDE")) :=
  (C8_merge_intersection ["CLAUDE", "OPENAI"] _ _).2.2.2.2 (by decide)
    (by decide) "CLAUDE" (by decide)

end Aether
